import Mathlib

/-!
Shallow embedding of the Arduino red-clock sketch
(`src/arduino-red-clock/arduino-red-clock.ino`).

The sketch drives a 4-digit 7-segment display.  Pin electrical state is
modelled as a function from physical pin number to logic level
(`true` = HIGH, `false` = LOW); `digitalWrite` is a pointwise update.
The `Display` class methods `clean`, `setDigit`, `setPosition`, `drawAt`
and the constructor body are translated directly; `delay` changes no pin
state and is therefore invisible in the state model.  The main `loop` is
modelled as a step function over the sketch's global variables, taking
the values of the successive `millis()` calls and the RTC reading as
inputs.
-/

namespace RedClock

/-- Logic level of a digital pin: `true` = HIGH, `false` = LOW. -/
abbrev Level := Bool

/-- Arduino HIGH level. -/
def HIGH : Level := true

/-- Arduino LOW level. -/
def LOW : Level := false

/-- Electrical state of all pins: physical pin number to level. -/
def PinState := Nat → Level

/-- `digitalWrite(pin, v)` as a state transformer. -/
def digitalWrite (s : PinState) (pin : Nat) (v : Level) : PinState :=
  fun p => if p = pin then v else s p

-- Physical pin numbers, from the constant block of the sketch.
def DISPLAY_PIN_A : Nat := 12
def DISPLAY_PIN_B : Nat := 8
def DISPLAY_PIN_C : Nat := 5
def DISPLAY_PIN_D : Nat := 3
def DISPLAY_PIN_E : Nat := 2
def DISPLAY_PIN_F : Nat := 11
def DISPLAY_PIN_G : Nat := 6
def DISPLAY_PIN_DP : Nat := 4
def DISPLAY_PIN_D1 : Nat := 13
def DISPLAY_PIN_D2 : Nat := 10
def DISPLAY_PIN_D3 : Nat := 9
def DISPLAY_PIN_D4 : Nat := 7

-- Configuration constants of the sketch.
def DIGIT_DISPLAY_DELAY : Nat := 1
def READ_TIME_PERIOD : Nat := 1000
def DOT_BLINK_PERIOD : Nat := 1000

namespace Display

/-- Indices of the `Pins` enum of the `Display` class:
`A, B, C, D, E, F, G, DP, D1, D2, D3, D4, COUNT`. -/
inductive Pins where
  | A | B | C | D | E | F | G | DP | D1 | D2 | D3 | D4
  deriving DecidableEq

/-- Index of each enumerator in the `Pins` enum (its C++ integer value). -/
def Pins.idx : Pins → Nat
  | .A => 0 | .B => 1 | .C => 2 | .D => 3 | .E => 4 | .F => 5 | .G => 6
  | .DP => 7 | .D1 => 8 | .D2 => 9 | .D3 => 10 | .D4 => 11

/-- `Pins::COUNT`: number of managed pins. -/
def PinsCOUNT : Nat := 12

/-- The `m_pins` array as filled by the global constructor call
`Display d(DISPLAY_PIN_A, ..., DISPLAY_PIN_D4)`: enum index to physical
pin number. -/
def m_pins (i : Nat) : Nat :=
  match i with
  | 0 => DISPLAY_PIN_A
  | 1 => DISPLAY_PIN_B
  | 2 => DISPLAY_PIN_C
  | 3 => DISPLAY_PIN_D
  | 4 => DISPLAY_PIN_E
  | 5 => DISPLAY_PIN_F
  | 6 => DISPLAY_PIN_G
  | 7 => DISPLAY_PIN_DP
  | 8 => DISPLAY_PIN_D1
  | 9 => DISPLAY_PIN_D2
  | 10 => DISPLAY_PIN_D3
  | 11 => DISPLAY_PIN_D4
  | _ => 0

-- Segment configuration bytes: bit order A, B, C, D, E, F, G, 0
-- (most significant bit = A, least significant bit always 0).
def D_0 : Nat := 0b11111100
def D_1 : Nat := 0b01100000
def D_2 : Nat := 0b11011010
def D_3 : Nat := 0b11110010
def D_4 : Nat := 0b01100110
def D_5 : Nat := 0b10110110
def D_6 : Nat := 0b10111110
def D_7 : Nat := 0b11100000
def D_8 : Nat := 0b11111110
def D_9 : Nat := 0b11110110

/-- The static array `m_digits[10] = { D_0, ..., D_9 }`.  Indexing the
C++ array out of range is undefined behaviour; the model returns 0 there
and every theorem about digits carries the bound `digit ≤ 9`. -/
def m_digits (digit : Nat) : Nat :=
  match digit with
  | 0 => D_0 | 1 => D_1 | 2 => D_2 | 3 => D_3 | 4 => D_4
  | 5 => D_5 | 6 => D_6 | 7 => D_7 | 8 => D_8 | 9 => D_9
  | _ => 0

/-- `Display::clean()`: set all four catodes (digit selects) to HIGH. -/
def clean (s : PinState) : PinState :=
  digitalWrite
    (digitalWrite
      (digitalWrite
        (digitalWrite s (m_pins Pins.D1.idx) HIGH)
        (m_pins Pins.D2.idx) HIGH)
      (m_pins Pins.D3.idx) HIGH)
    (m_pins Pins.D4.idx) HIGH

/-- `Display::setDigit(digit)`: for `i = 0..6` drive segment pin
`m_pins[i]` HIGH when bit `(m_digits[digit] & (B10000000 >> i))` is
non-zero, LOW otherwise. -/
def setDigit (s : PinState) (digit : Nat) : PinState :=
  (List.range 7).foldl
    (fun st i =>
      digitalWrite st (m_pins i)
        (if m_digits digit &&& (128 >>> i) ≠ 0 then HIGH else LOW))
    s

/-- `Display::setPosition(pos)`: drive the selected catode LOW and the
other three HIGH. -/
def setPosition (s : PinState) (pos : Int) : PinState :=
  digitalWrite
    (digitalWrite
      (digitalWrite
        (digitalWrite s (m_pins Pins.D1.idx) (if pos = 0 then LOW else HIGH))
        (m_pins Pins.D2.idx) (if pos = 1 then LOW else HIGH))
      (m_pins Pins.D3.idx) (if pos = 2 then LOW else HIGH))
    (m_pins Pins.D4.idx) (if pos = 3 then LOW else HIGH)

/-- `Display::drawAt(pos, digit, displayDot)`: clean, set segments, set
the dot, select the position, then `delay(DIGIT_DISPLAY_DELAY)` (the
delay leaves pin state untouched, so the result is the state held
during the dwell). -/
def drawAt (s : PinState) (pos : Int) (digit : Nat) (displayDot : Bool) :
    PinState :=
  setPosition
    (digitalWrite (setDigit (clean s) digit) (m_pins Pins.DP.idx)
      (if displayDot then HIGH else LOW))
    pos

/-- Pin modes and levels together, for the constructor model
(`pinMode` writes the mode, `true` = OUTPUT). -/
structure PinConfig where
  mode : Nat → Bool
  level : PinState

/-- Body of the `Display` constructor after the pins are stored: for
`i = 0..COUNT-1`, `pinMode(m_pins[i], OUTPUT); digitalWrite(m_pins[i], LOW)`. -/
def constructorInit (c : PinConfig) : PinConfig :=
  (List.range PinsCOUNT).foldl
    (fun cfg i =>
      { mode := fun p => if p = m_pins i then true else cfg.mode p
        level := digitalWrite cfg.level (m_pins i) LOW })
    c

end Display

namespace Display

/-- Single `digitalWrite` call recorded as (pin, level). -/
abbrev Write := Nat × Level

/-- The four writes of `Display::clean()`, in program order. -/
def cleanWrites : List Write :=
  [(m_pins Pins.D1.idx, HIGH), (m_pins Pins.D2.idx, HIGH),
   (m_pins Pins.D3.idx, HIGH), (m_pins Pins.D4.idx, HIGH)]

/-- The seven writes of `Display::setDigit(digit)`, in program order. -/
def setDigitWrites (digit : Nat) : List Write :=
  (List.range 7).map
    (fun i => (m_pins i, if m_digits digit &&& (128 >>> i) ≠ 0 then HIGH else LOW))

/-- The four writes of `Display::setPosition(pos)`, in program order. -/
def setPositionWrites (pos : Int) : List Write :=
  [(m_pins Pins.D1.idx, if pos = 0 then LOW else HIGH),
   (m_pins Pins.D2.idx, if pos = 1 then LOW else HIGH),
   (m_pins Pins.D3.idx, if pos = 2 then LOW else HIGH),
   (m_pins Pins.D4.idx, if pos = 3 then LOW else HIGH)]

/-- All sixteen `digitalWrite` calls a `drawAt(pos, digit, displayDot)`
call performs, in program order. -/
def drawAtWrites (pos : Int) (digit : Nat) (displayDot : Bool) : List Write :=
  cleanWrites ++ setDigitWrites digit ++
    [(m_pins Pins.DP.idx, if displayDot then HIGH else LOW)] ++
    setPositionWrites pos

/-- Replay a list of writes on a state. -/
def applyWrites (s : PinState) (ws : List Write) : PinState :=
  ws.foldl (fun st w => digitalWrite st w.1 w.2) s

/-- All intermediate pin states of a `drawAt` call: the entry state and
the state after each of the sixteen writes (17 states). -/
def drawAtTrace (s : PinState) (pos : Int) (digit : Nat) (displayDot : Bool) :
    List PinState :=
  (drawAtWrites pos digit displayDot).scanl
    (fun st w => digitalWrite st w.1 w.2) s

end Display

/-- Levels of the four digit-select (catode) lines D1, D2, D3, D4. -/
def selectLevels (s : PinState) : List Level :=
  [s DISPLAY_PIN_D1, s DISPLAY_PIN_D2, s DISPLAY_PIN_D3, s DISPLAY_PIN_D4]

/-- Number of digit-select lines currently active (driven LOW). -/
def activeCount (s : PinState) : Nat :=
  (selectLevels s).countP (fun b => !b)

/-- Levels of the seven segment lines in order A, B, C, D, E, F, G. -/
def segmentLevels (s : PinState) : List Level :=
  [s DISPLAY_PIN_A, s DISPLAY_PIN_B, s DISPLAY_PIN_C, s DISPLAY_PIN_D,
   s DISPLAY_PIN_E, s DISPLAY_PIN_F, s DISPLAY_PIN_G]

/-- At most one digit-select line is active (LOW). -/
def atMostOneActive (s : PinState) : Prop := activeCount s ≤ 1

/-- Expected 7-segment glyph patterns, one per decimal digit, written
out from the spec's documented encoding (bits 7..1 of the table entry,
in segment order A, B, C, D, E, F, G; `HIGH` = segment energized). -/
def expectedSegments (digit : Nat) : List Level :=
  match digit with
  | 0 => [HIGH, HIGH, HIGH, HIGH, HIGH, HIGH, LOW]
  | 1 => [LOW, HIGH, HIGH, LOW, LOW, LOW, LOW]
  | 2 => [HIGH, HIGH, LOW, HIGH, HIGH, LOW, HIGH]
  | 3 => [HIGH, HIGH, HIGH, HIGH, LOW, LOW, HIGH]
  | 4 => [LOW, HIGH, HIGH, LOW, LOW, HIGH, HIGH]
  | 5 => [HIGH, LOW, HIGH, HIGH, LOW, HIGH, HIGH]
  | 6 => [HIGH, LOW, HIGH, HIGH, HIGH, HIGH, HIGH]
  | 7 => [HIGH, HIGH, HIGH, LOW, LOW, LOW, LOW]
  | 8 => [HIGH, HIGH, HIGH, HIGH, HIGH, HIGH, HIGH]
  | 9 => [HIGH, HIGH, HIGH, HIGH, LOW, HIGH, HIGH]
  | _ => []

/-- Blink computation of the main loop:
`millis() % DOT_BLINK_PERIOD >= DOT_BLINK_PERIOD / 2`, as a function of
the `millis()` value `t`. -/
def blinkingDotState (t : Nat) : Bool :=
  decide (t % DOT_BLINK_PERIOD ≥ DOT_BLINK_PERIOD / 2)

/-- Modulus of the Arduino `unsigned long` type (32 bits). -/
def U32 : Nat := 4294967296

/-- `unsigned long` subtraction `a - b` as performed by the loop's guard
`millis() - lastReadTimestamp` (wrap-around modulo 2^32). -/
def ulongSub (a b : Nat) : Nat :=
  (a % U32 + (U32 - b % U32)) % U32

/-- The fields of the RTC reading that the sketch consumes. -/
structure RTCDateTime where
  hour : Nat
  minute : Nat
  deriving DecidableEq

/-- Global mutable state of the sketch used by `loop`:
`currentDateTime` and `lastReadTimestamp`. -/
structure GlobalState where
  currentDateTime : RTCDateTime
  lastReadTimestamp : Nat
  deriving DecidableEq

/-- Time-refresh step at the top of `loop`: if
`millis() - lastReadTimestamp >= READ_TIME_PERIOD`, read the RTC and
store the second `millis()` call's value.  `t1` is the `millis()` value
at the guard, `t2` the one stored into `lastReadTimestamp`, `rtc` the
value `clock.getDateTime()` would return. -/
def loopReadStep (t1 t2 : Nat) (rtc : RTCDateTime) (s : GlobalState) :
    GlobalState :=
  if ulongSub t1 s.lastReadTimestamp ≥ READ_TIME_PERIOD then
    { currentDateTime := rtc, lastReadTimestamp := t2 }
  else s

/-- One `drawAt` call issued by `loop`, recorded as its arguments. -/
structure DrawEvent where
  pos : Int
  digit : Nat
  dot : Bool
  deriving DecidableEq

/-- One iteration of `loop`: the time-refresh step, the blink
computation (`t3` is the `millis()` value at that line), then the four
`drawAt` calls in program order.  Returns the updated global state and
the list of issued draw calls. -/
def loopIter (t1 t2 t3 : Nat) (rtc : RTCDateTime) (s : GlobalState) :
    GlobalState × List DrawEvent :=
  let s2 := loopReadStep t1 t2 rtc s
  let blink := blinkingDotState t3
  (s2,
   [⟨0, s2.currentDateTime.hour / 10, false⟩,
    ⟨1, s2.currentDateTime.hour % 10, blink⟩,
    ⟨2, s2.currentDateTime.minute / 10, false⟩,
    ⟨3, s2.currentDateTime.minute % 10, false⟩])

/-- Render sequence the spec prescribes for one sweep: positions 0..3,
digit values by decimal decomposition of cached hour and minute, dot
only at position 1.  Written from the spec's words, to be compared with
the sequence `loopIter` issues. -/
def specRenderSequence (hour minute : Nat) (blink : Bool) : List DrawEvent :=
  [⟨0, hour / 10, false⟩,
   ⟨1, hour % 10, blink⟩,
   ⟨2, minute / 10, false⟩,
   ⟨3, minute % 10, false⟩]

end RedClock

namespace RedClock

lemma amo_write_select_high (s : PinState) (p : Nat)
    (hp : p ∈ [DISPLAY_PIN_D1, DISPLAY_PIN_D2, DISPLAY_PIN_D3, DISPLAY_PIN_D4])
    (h : atMostOneActive s) : atMostOneActive (digitalWrite s p HIGH) := by
  fin_cases hp <;>
  · simp only [atMostOneActive, activeCount, selectLevels, List.countP_cons,
      List.countP_nil, digitalWrite, DISPLAY_PIN_D1, DISPLAY_PIN_D2,
      DISPLAY_PIN_D3, DISPLAY_PIN_D4, HIGH, LOW] at h ⊢
    cases h13 : s 13 <;> cases h10 : s 10 <;> cases h9 : s 9 <;>
      cases h7 : s 7 <;> simp_all

lemma clean_selects (s : PinState) :
    selectLevels (Display.clean s) = [HIGH, HIGH, HIGH, HIGH] := by
  simp [selectLevels, Display.clean, digitalWrite, Display.m_pins,
    Display.Pins.idx, DISPLAY_PIN_D1, DISPLAY_PIN_D2, DISPLAY_PIN_D3,
    DISPLAY_PIN_D4]

lemma write_other_selects (s : PinState) (p : Nat) (v : Level)
    (hp : p ∈ [DISPLAY_PIN_A, DISPLAY_PIN_B, DISPLAY_PIN_C, DISPLAY_PIN_D,
               DISPLAY_PIN_E, DISPLAY_PIN_F, DISPLAY_PIN_G, DISPLAY_PIN_DP]) :
    selectLevels (digitalWrite s p v) = selectLevels s := by
  fin_cases hp <;>
    simp [selectLevels, digitalWrite, DISPLAY_PIN_A, DISPLAY_PIN_B,
      DISPLAY_PIN_C, DISPLAY_PIN_D, DISPLAY_PIN_E, DISPLAY_PIN_F,
      DISPLAY_PIN_G, DISPLAY_PIN_DP, DISPLAY_PIN_D1, DISPLAY_PIN_D2,
      DISPLAY_PIN_D3, DISPLAY_PIN_D4]

lemma amo_of_selects_high (s : PinState)
    (h : selectLevels s = [HIGH, HIGH, HIGH, HIGH]) : atMostOneActive s := by
  simp [atMostOneActive, activeCount, h, HIGH]

lemma setPosition_partial_amo (s : PinState) (pos : Int)
    (h : selectLevels s = [HIGH, HIGH, HIGH, HIGH]) :
    atMostOneActive (digitalWrite s DISPLAY_PIN_D1 (if pos = 0 then LOW else HIGH)) ∧
    atMostOneActive (digitalWrite (digitalWrite s DISPLAY_PIN_D1
      (if pos = 0 then LOW else HIGH)) DISPLAY_PIN_D2 (if pos = 1 then LOW else HIGH)) ∧
    atMostOneActive (digitalWrite (digitalWrite (digitalWrite s DISPLAY_PIN_D1
      (if pos = 0 then LOW else HIGH)) DISPLAY_PIN_D2 (if pos = 1 then LOW else HIGH))
      DISPLAY_PIN_D3 (if pos = 2 then LOW else HIGH)) ∧
    atMostOneActive (digitalWrite (digitalWrite (digitalWrite (digitalWrite s
      DISPLAY_PIN_D1 (if pos = 0 then LOW else HIGH)) DISPLAY_PIN_D2
      (if pos = 1 then LOW else HIGH)) DISPLAY_PIN_D3 (if pos = 2 then LOW else HIGH))
      DISPLAY_PIN_D4 (if pos = 3 then LOW else HIGH)) := by
  simp only [selectLevels, List.cons.injEq, and_true] at h
  obtain h13 := h.1
  obtain h10 := h.2.1
  obtain h9 := h.2.2.1
  obtain h7 := h.2.2.2
  by_cases hp0 : pos = 0 <;> by_cases hp1 : pos = 1 <;>
    by_cases hp2 : pos = 2 <;> by_cases hp3 : pos = 3 <;>
    simp_all [atMostOneActive, activeCount, selectLevels, digitalWrite,
      DISPLAY_PIN_D1, DISPLAY_PIN_D2, DISPLAY_PIN_D3, DISPLAY_PIN_D4,
      HIGH, LOW]

lemma ulongSub_of_le (a b : Nat) (hba : b ≤ a) (hw : a - b < U32) :
    ulongSub a b = a - b := by
  simp only [ulongSub, U32] at *
  omega

/-- Claim C1: for a position 0..3, at the moment `drawAt` begins its
dwell delay exactly one digit-select line is LOW (active), namely the
one of the given position; the other three are HIGH. -/
theorem drawAt_select_exclusive (s : PinState) (pos : Int) (digit : Nat)
    (dot : Bool) (hpos : 0 ≤ pos ∧ pos ≤ 3) (hd : digit ≤ 9) :
    activeCount (Display.drawAt s pos digit dot) = 1 ∧
    (((Display.drawAt s pos digit dot) DISPLAY_PIN_D1 = LOW) ↔ pos = 0) ∧
    (((Display.drawAt s pos digit dot) DISPLAY_PIN_D2 = LOW) ↔ pos = 1) ∧
    (((Display.drawAt s pos digit dot) DISPLAY_PIN_D3 = LOW) ↔ pos = 2) ∧
    (((Display.drawAt s pos digit dot) DISPLAY_PIN_D4 = LOW) ↔ pos = 3) := by
  obtain ⟨hl, hr⟩ := hpos
  interval_cases pos <;>
    simp [activeCount, selectLevels, Display.drawAt, Display.setPosition,
      Display.setDigit, Display.clean, digitalWrite, Display.m_pins,
      Display.Pins.idx, HIGH, LOW,
      DISPLAY_PIN_A, DISPLAY_PIN_B, DISPLAY_PIN_C, DISPLAY_PIN_D,
      DISPLAY_PIN_E, DISPLAY_PIN_F, DISPLAY_PIN_G, DISPLAY_PIN_DP,
      DISPLAY_PIN_D1, DISPLAY_PIN_D2, DISPLAY_PIN_D3, DISPLAY_PIN_D4,
      List.range_succ]

theorem drawAt_select_exclusive_witness :
    ((0 : Int) ≤ 2 ∧ (2 : Int) ≤ 3) ∧ (1 : Nat) ≤ 9 ∧
      (activeCount (Display.drawAt (fun _ => LOW) 2 1 false) = 1 ∧
       (((Display.drawAt (fun _ => LOW) 2 1 false) DISPLAY_PIN_D1 = LOW) ↔
         (2 : Int) = 0) ∧
       (((Display.drawAt (fun _ => LOW) 2 1 false) DISPLAY_PIN_D2 = LOW) ↔
         (2 : Int) = 1) ∧
       (((Display.drawAt (fun _ => LOW) 2 1 false) DISPLAY_PIN_D3 = LOW) ↔
         (2 : Int) = 2) ∧
       (((Display.drawAt (fun _ => LOW) 2 1 false) DISPLAY_PIN_D4 = LOW) ↔
         (2 : Int) = 3)) :=
  ⟨⟨by decide, by decide⟩, by decide,
   drawAt_select_exclusive (fun _ => LOW) 2 1 false ⟨by decide, by decide⟩
     (by decide)⟩

/-- Claim C2: a `drawAt` call decomposes into its sixteen writes; if at
most one digit-select line was active on entry, then at every
intermediate instant at most one digit-select line is active, and in
the whole stretch after the initial blanking and before `setPosition`
(the states during which segment lines and the dot line change) all
four digit-select lines are inactive. -/
theorem drawAt_trace_select_invariant (s : PinState) (pos : Int)
    (digit : Nat) (dot : Bool) (h0 : atMostOneActive s) :
    Display.applyWrites s (Display.drawAtWrites pos digit dot) =
      Display.drawAt s pos digit dot ∧
    (∀ st ∈ Display.drawAtTrace s pos digit dot, atMostOneActive st) ∧
    (∀ st ∈ ((Display.drawAtTrace s pos digit dot).drop 4).take 9,
        selectLevels st = [HIGH, HIGH, HIGH, HIGH]) := by
  refine ⟨rfl, ?_⟩
  simp only [Display.drawAtTrace, Display.drawAtWrites, Display.cleanWrites,
    Display.setDigitWrites, Display.setPositionWrites, List.range_succ,
    List.range_zero, List.map_append, List.map_cons, List.map_nil,
    List.append_assoc, List.cons_append, List.nil_append, List.scanl,
    List.drop_succ_cons, List.drop_zero, List.take_succ_cons, List.take_zero,
    List.forall_mem_cons]
  refine ⟨⟨h0,
     amo_write_select_high _ _ (by decide)
        (h0),
     amo_write_select_high _ _ (by decide)
        (amo_write_select_high _ _ (by decide)
        (h0)),
     amo_write_select_high _ _ (by decide)
        (amo_write_select_high _ _ (by decide)
        (amo_write_select_high _ _ (by decide)
        (h0))),
     amo_write_select_high _ _ (by decide)
        (amo_write_select_high _ _ (by decide)
        (amo_write_select_high _ _ (by decide)
        (amo_write_select_high _ _ (by decide)
        (h0)))),
     amo_of_selects_high _ ((write_other_selects _ _ _ (by decide)).trans
        (clean_selects s)),
     amo_of_selects_high _ ((write_other_selects _ _ _ (by decide)).trans
        ((write_other_selects _ _ _ (by decide)).trans
        (clean_selects s))),
     amo_of_selects_high _ ((write_other_selects _ _ _ (by decide)).trans
        ((write_other_selects _ _ _ (by decide)).trans
        ((write_other_selects _ _ _ (by decide)).trans
        (clean_selects s)))),
     amo_of_selects_high _ ((write_other_selects _ _ _ (by decide)).trans
        ((write_other_selects _ _ _ (by decide)).trans
        ((write_other_selects _ _ _ (by decide)).trans
        ((write_other_selects _ _ _ (by decide)).trans
        (clean_selects s))))),
     amo_of_selects_high _ ((write_other_selects _ _ _ (by decide)).trans
        ((write_other_selects _ _ _ (by decide)).trans
        ((write_other_selects _ _ _ (by decide)).trans
        ((write_other_selects _ _ _ (by decide)).trans
        ((write_other_selects _ _ _ (by decide)).trans
        (clean_selects s)))))),
     amo_of_selects_high _ ((write_other_selects _ _ _ (by decide)).trans
        ((write_other_selects _ _ _ (by decide)).trans
        ((write_other_selects _ _ _ (by decide)).trans
        ((write_other_selects _ _ _ (by decide)).trans
        ((write_other_selects _ _ _ (by decide)).trans
        ((write_other_selects _ _ _ (by decide)).trans
        (clean_selects s))))))),
     amo_of_selects_high _ ((write_other_selects _ _ _ (by decide)).trans
        ((write_other_selects _ _ _ (by decide)).trans
        ((write_other_selects _ _ _ (by decide)).trans
        ((write_other_selects _ _ _ (by decide)).trans
        ((write_other_selects _ _ _ (by decide)).trans
        ((write_other_selects _ _ _ (by decide)).trans
        ((write_other_selects _ _ _ (by decide)).trans
        (clean_selects s)))))))),
     amo_of_selects_high _ ((write_other_selects _ _ _ (by decide)).trans
        ((write_other_selects _ _ _ (by decide)).trans
        ((write_other_selects _ _ _ (by decide)).trans
        ((write_other_selects _ _ _ (by decide)).trans
        ((write_other_selects _ _ _ (by decide)).trans
        ((write_other_selects _ _ _ (by decide)).trans
        ((write_other_selects _ _ _ (by decide)).trans
        ((write_other_selects _ _ _ (by decide)).trans
        (clean_selects s))))))))),
     (setPosition_partial_amo _ pos
        ((write_other_selects _ _ _ (by decide)).trans
        ((write_other_selects _ _ _ (by decide)).trans
        ((write_other_selects _ _ _ (by decide)).trans
        ((write_other_selects _ _ _ (by decide)).trans
        ((write_other_selects _ _ _ (by decide)).trans
        ((write_other_selects _ _ _ (by decide)).trans
        ((write_other_selects _ _ _ (by decide)).trans
        ((write_other_selects _ _ _ (by decide)).trans
        (clean_selects s)))))))))).1,
     (setPosition_partial_amo _ pos
        ((write_other_selects _ _ _ (by decide)).trans
        ((write_other_selects _ _ _ (by decide)).trans
        ((write_other_selects _ _ _ (by decide)).trans
        ((write_other_selects _ _ _ (by decide)).trans
        ((write_other_selects _ _ _ (by decide)).trans
        ((write_other_selects _ _ _ (by decide)).trans
        ((write_other_selects _ _ _ (by decide)).trans
        ((write_other_selects _ _ _ (by decide)).trans
        (clean_selects s)))))))))).2.1,
     (setPosition_partial_amo _ pos
        ((write_other_selects _ _ _ (by decide)).trans
        ((write_other_selects _ _ _ (by decide)).trans
        ((write_other_selects _ _ _ (by decide)).trans
        ((write_other_selects _ _ _ (by decide)).trans
        ((write_other_selects _ _ _ (by decide)).trans
        ((write_other_selects _ _ _ (by decide)).trans
        ((write_other_selects _ _ _ (by decide)).trans
        ((write_other_selects _ _ _ (by decide)).trans
        (clean_selects s)))))))))).2.2.1,
     (setPosition_partial_amo _ pos
        ((write_other_selects _ _ _ (by decide)).trans
        ((write_other_selects _ _ _ (by decide)).trans
        ((write_other_selects _ _ _ (by decide)).trans
        ((write_other_selects _ _ _ (by decide)).trans
        ((write_other_selects _ _ _ (by decide)).trans
        ((write_other_selects _ _ _ (by decide)).trans
        ((write_other_selects _ _ _ (by decide)).trans
        ((write_other_selects _ _ _ (by decide)).trans
        (clean_selects s)))))))))).2.2.2,
     fun x hx => absurd hx (List.not_mem_nil x)⟩, ⟨clean_selects s,
     (write_other_selects _ _ _ (by decide)).trans
        (clean_selects s),
     (write_other_selects _ _ _ (by decide)).trans
        ((write_other_selects _ _ _ (by decide)).trans
        (clean_selects s)),
     (write_other_selects _ _ _ (by decide)).trans
        ((write_other_selects _ _ _ (by decide)).trans
        ((write_other_selects _ _ _ (by decide)).trans
        (clean_selects s))),
     (write_other_selects _ _ _ (by decide)).trans
        ((write_other_selects _ _ _ (by decide)).trans
        ((write_other_selects _ _ _ (by decide)).trans
        ((write_other_selects _ _ _ (by decide)).trans
        (clean_selects s)))),
     (write_other_selects _ _ _ (by decide)).trans
        ((write_other_selects _ _ _ (by decide)).trans
        ((write_other_selects _ _ _ (by decide)).trans
        ((write_other_selects _ _ _ (by decide)).trans
        ((write_other_selects _ _ _ (by decide)).trans
        (clean_selects s))))),
     (write_other_selects _ _ _ (by decide)).trans
        ((write_other_selects _ _ _ (by decide)).trans
        ((write_other_selects _ _ _ (by decide)).trans
        ((write_other_selects _ _ _ (by decide)).trans
        ((write_other_selects _ _ _ (by decide)).trans
        ((write_other_selects _ _ _ (by decide)).trans
        (clean_selects s)))))),
     (write_other_selects _ _ _ (by decide)).trans
        ((write_other_selects _ _ _ (by decide)).trans
        ((write_other_selects _ _ _ (by decide)).trans
        ((write_other_selects _ _ _ (by decide)).trans
        ((write_other_selects _ _ _ (by decide)).trans
        ((write_other_selects _ _ _ (by decide)).trans
        ((write_other_selects _ _ _ (by decide)).trans
        (clean_selects s))))))),
     (write_other_selects _ _ _ (by decide)).trans
        ((write_other_selects _ _ _ (by decide)).trans
        ((write_other_selects _ _ _ (by decide)).trans
        ((write_other_selects _ _ _ (by decide)).trans
        ((write_other_selects _ _ _ (by decide)).trans
        ((write_other_selects _ _ _ (by decide)).trans
        ((write_other_selects _ _ _ (by decide)).trans
        ((write_other_selects _ _ _ (by decide)).trans
        (clean_selects s)))))))),
     fun x hx => absurd hx (List.not_mem_nil x)⟩⟩

theorem drawAt_trace_select_invariant_witness :
    atMostOneActive (fun _ => HIGH) ∧
    (Display.applyWrites (fun _ => HIGH) (Display.drawAtWrites 2 8 true) =
      Display.drawAt (fun _ => HIGH) 2 8 true ∧
    (∀ st ∈ Display.drawAtTrace (fun _ => HIGH) 2 8 true, atMostOneActive st) ∧
    (∀ st ∈ ((Display.drawAtTrace (fun _ => HIGH) 2 8 true).drop 4).take 9,
        selectLevels st = [HIGH, HIGH, HIGH, HIGH])) :=
  ⟨by unfold atMostOneActive; decide,
   drawAt_trace_select_invariant (fun _ => HIGH) 2 8 true
     (by unfold atMostOneActive; decide)⟩

/-- Claim C3: for every digit 0..9, after `drawAt` the segment lines
A..G carry exactly the 7-segment pattern of bits 7..1 of the encoding
table entry. -/
theorem drawAt_segment_pattern (s : PinState) (pos : Int) (dot : Bool)
    (digit : Nat) (hd : digit ≤ 9) :
    segmentLevels (Display.drawAt s pos digit dot) = expectedSegments digit := by
  interval_cases digit <;>
    simp [segmentLevels, Display.drawAt, Display.setPosition, Display.setDigit,
      Display.clean, digitalWrite, Display.m_pins, Display.m_digits,
      Display.Pins.idx, expectedSegments, HIGH, LOW,
      DISPLAY_PIN_A, DISPLAY_PIN_B, DISPLAY_PIN_C, DISPLAY_PIN_D,
      DISPLAY_PIN_E, DISPLAY_PIN_F, DISPLAY_PIN_G, DISPLAY_PIN_DP,
      DISPLAY_PIN_D1, DISPLAY_PIN_D2, DISPLAY_PIN_D3, DISPLAY_PIN_D4,
      Display.D_0, Display.D_1, Display.D_2, Display.D_3, Display.D_4,
      Display.D_5, Display.D_6, Display.D_7, Display.D_8, Display.D_9,
      List.range_succ] <;>
    decide

theorem drawAt_segment_pattern_witness :
    (4 : Nat) ≤ 9 ∧
      segmentLevels (Display.drawAt (fun _ => LOW) 1 4 true) =
        expectedSegments 4 :=
  ⟨by decide, drawAt_segment_pattern (fun _ => LOW) 1 true 4 (by decide)⟩

/-- Claim C4: after `drawAt`, the dot line DP is HIGH iff `displayDot`
is true, for any position and any digit 0..9. -/
theorem drawAt_dot_line (s : PinState) (pos : Int) (digit : Nat)
    (dot : Bool) (hd : digit ≤ 9) :
    ((Display.drawAt s pos digit dot) DISPLAY_PIN_DP = HIGH) ↔ dot = true := by
  cases dot <;>
    simp [Display.drawAt, Display.setPosition, Display.setDigit,
      Display.clean, digitalWrite, Display.m_pins, Display.Pins.idx,
      HIGH, LOW,
      DISPLAY_PIN_A, DISPLAY_PIN_B, DISPLAY_PIN_C, DISPLAY_PIN_D,
      DISPLAY_PIN_E, DISPLAY_PIN_F, DISPLAY_PIN_G, DISPLAY_PIN_DP,
      DISPLAY_PIN_D1, DISPLAY_PIN_D2, DISPLAY_PIN_D3, DISPLAY_PIN_D4,
      List.range_succ]

theorem drawAt_dot_line_witness :
    (7 : Nat) ≤ 9 ∧
      (((Display.drawAt (fun _ => LOW) 2 7 true) DISPLAY_PIN_DP = HIGH) ↔
        true = true) :=
  ⟨by decide, drawAt_dot_line (fun _ => LOW) 2 7 true (by decide)⟩

/-- Claim C5: the blink phase is false on the first half of each
`DOT_BLINK_PERIOD` window, true on the second half, and re-evaluating
at the same instant gives the same value. -/
theorem blink_phase_halves (t : Nat) :
    (t % DOT_BLINK_PERIOD < DOT_BLINK_PERIOD / 2 → blinkingDotState t = false) ∧
    (DOT_BLINK_PERIOD / 2 ≤ t % DOT_BLINK_PERIOD → blinkingDotState t = true) ∧
    blinkingDotState t = blinkingDotState t := by
  refine ⟨?_, ?_, rfl⟩ <;>
    · intro h
      simp only [blinkingDotState, DOT_BLINK_PERIOD] at *
      simp only [decide_eq_false_iff_not, decide_eq_true_eq]
      omega

theorem blink_phase_halves_witness :
    DOT_BLINK_PERIOD / 2 ≤ 700 % DOT_BLINK_PERIOD ∧
      blinkingDotState 700 = true :=
  ⟨by decide, (blink_phase_halves 700).2.1 (by decide)⟩

/-- Claim C6: each loop iteration renders positions 0,1,2,3 with the
decimal digits of the cached hour and minute, passing the blink phase
as the dot only at position 1; cached 7:05 renders 0,7,0,5 and 23:59
renders 2,3,5,9. -/
theorem loop_render_sequence (t1 t2 t3 : Nat) (rtc : RTCDateTime)
    (s : GlobalState) :
    ((loopIter t1 t2 t3 rtc s).2 =
      specRenderSequence (loopReadStep t1 t2 rtc s).currentDateTime.hour
        (loopReadStep t1 t2 rtc s).currentDateTime.minute
        (blinkingDotState t3)) ∧
    ((loopIter t1 t2 t3 rtc s).2.map DrawEvent.pos = [0, 1, 2, 3]) ∧
    ((loopIter t1 t2 t3 rtc s).2.map DrawEvent.dot =
      [false, blinkingDotState t3, false, false]) ∧
    ((loopIter 500 600 700 ⟨0, 0⟩ ⟨⟨7, 5⟩, 0⟩).2.map DrawEvent.digit =
      [0, 7, 0, 5]) ∧
    ((loopIter 500 600 700 ⟨0, 0⟩ ⟨⟨7, 5⟩, 0⟩).2.map DrawEvent.dot =
      [false, true, false, false]) ∧
    ((loopIter 500 600 400 ⟨0, 0⟩ ⟨⟨23, 59⟩, 0⟩).2.map DrawEvent.digit =
      [2, 3, 5, 9]) := by
  refine ⟨rfl, rfl, rfl, by decide, by decide, by decide⟩

/-- Claim C7 counterexample: the `Display` constructor writes LOW to
every pin, so the digit-select line D1 is NOT left at the electrically
high (inactive) level the claim asserts. -/
theorem display_ctor_select_not_inactive_cex :
    ¬ ((Display.constructorInit ⟨fun _ => true, fun _ => true⟩).level
        DISPLAY_PIN_D1 = HIGH) := by
  decide

/-- Claim C7 (amended): the constructor configures all 12 managed pins
as outputs and drives every one of them LOW — segment and dot lines to
their off level, but the digit-select lines to the electrically low
(active-low, selected) state rather than HIGH. -/
theorem display_ctor_all_output_low (c : Display.PinConfig) (i : Nat)
    (hi : i < Display.PinsCOUNT) :
    (Display.constructorInit c).mode (Display.m_pins i) = true ∧
    (Display.constructorInit c).level (Display.m_pins i) = LOW := by
  have hi12 : i < 12 := hi
  clear hi
  interval_cases i <;>
    simp [Display.constructorInit, Display.PinsCOUNT, digitalWrite,
      Display.m_pins, HIGH, LOW,
      DISPLAY_PIN_A, DISPLAY_PIN_B, DISPLAY_PIN_C, DISPLAY_PIN_D,
      DISPLAY_PIN_E, DISPLAY_PIN_F, DISPLAY_PIN_G, DISPLAY_PIN_DP,
      DISPLAY_PIN_D1, DISPLAY_PIN_D2, DISPLAY_PIN_D3, DISPLAY_PIN_D4,
      List.range_succ]

theorem display_ctor_all_output_low_witness :
    (8 : Nat) < Display.PinsCOUNT ∧
      ((Display.constructorInit ⟨fun _ => false, fun _ => true⟩).mode
          (Display.m_pins 8) = true ∧
       (Display.constructorInit ⟨fun _ => false, fun _ => true⟩).level
          (Display.m_pins 8) = LOW) :=
  ⟨by decide,
   display_ctor_all_output_low ⟨fun _ => false, fun _ => true⟩ 8 (by decide)⟩

/-- Claim C8: the cached time is refreshed only when at least
`READ_TIME_PERIOD` ms have elapsed since the last read, is left
untouched otherwise, and stays stable for a further full period after
a read, however fast the RTC value changes. -/
theorem loop_read_cadence (t1 t2 : Nat) (rtc : RTCDateTime)
    (s : GlobalState) (h1 : s.lastReadTimestamp ≤ t1) (h2 : t1 ≤ t2)
    (hw : t1 - s.lastReadTimestamp < U32) :
    (t1 < s.lastReadTimestamp + READ_TIME_PERIOD →
      loopReadStep t1 t2 rtc s = s) ∧
    (s.lastReadTimestamp + READ_TIME_PERIOD ≤ t1 →
      (loopReadStep t1 t2 rtc s).currentDateTime = rtc ∧
      (loopReadStep t1 t2 rtc s).lastReadTimestamp = t2 ∧
      s.lastReadTimestamp + READ_TIME_PERIOD ≤ t2) ∧
    (∀ u1 u2 : Nat, ∀ rtc2 : RTCDateTime,
      s.lastReadTimestamp + READ_TIME_PERIOD ≤ t1 →
      t2 ≤ u1 → u1 < t2 + READ_TIME_PERIOD →
      loopReadStep u1 u2 rtc2 (loopReadStep t1 t2 rtc s) =
        loopReadStep t1 t2 rtc s) := by
  have key : ulongSub t1 s.lastReadTimestamp = t1 - s.lastReadTimestamp :=
    ulongSub_of_le _ _ h1 hw
  refine ⟨?_, ?_, ?_⟩
  · intro h
    have hn : ¬ (ulongSub t1 s.lastReadTimestamp ≥ READ_TIME_PERIOD) := by
      rw [key]
      simp only [READ_TIME_PERIOD] at *
      omega
    simp [loopReadStep, hn]
  · intro h
    have hy : ulongSub t1 s.lastReadTimestamp ≥ READ_TIME_PERIOD := by
      rw [key]
      simp only [READ_TIME_PERIOD] at *
      omega
    refine ⟨by simp [loopReadStep, hy], by simp [loopReadStep, hy], ?_⟩
    simp only [READ_TIME_PERIOD] at *
    omega
  · intro u1 u2 rtc2 hread hu1 hlt
    have hy : ulongSub t1 s.lastReadTimestamp ≥ READ_TIME_PERIOD := by
      rw [key]
      simp only [READ_TIME_PERIOD] at *
      omega
    have hstate : loopReadStep t1 t2 rtc s =
        ({ currentDateTime := rtc, lastReadTimestamp := t2 } : GlobalState) := by
      simp [loopReadStep, hy]
    rw [hstate]
    have key2 : ulongSub u1 t2 = u1 - t2 :=
      ulongSub_of_le _ _ hu1 (by simp only [READ_TIME_PERIOD, U32] at *; omega)
    have hn2 : ¬ (ulongSub u1 t2 ≥ READ_TIME_PERIOD) := by
      rw [key2]
      simp only [READ_TIME_PERIOD] at *
      omega
    simp [loopReadStep, hn2]

theorem loop_read_cadence_witness :
    ((⟨⟨7, 5⟩, 100⟩ : GlobalState).lastReadTimestamp ≤ 300 ∧ (300 : Nat) ≤ 350 ∧
      300 - (⟨⟨7, 5⟩, 100⟩ : GlobalState).lastReadTimestamp < U32) ∧
    ((300 : Nat) < (⟨⟨7, 5⟩, 100⟩ : GlobalState).lastReadTimestamp +
        READ_TIME_PERIOD) ∧
    loopReadStep 300 350 ⟨9, 9⟩ ⟨⟨7, 5⟩, 100⟩ = ⟨⟨7, 5⟩, 100⟩ :=
  ⟨⟨by decide, by decide, by decide⟩, by decide,
   (loop_read_cadence 300 350 ⟨9, 9⟩ ⟨⟨7, 5⟩, 100⟩ (by decide) (by decide)
      (by decide)).1 (by decide)⟩

/-- Claim C9: for a position outside 0..3, `drawAt` leaves all four
digit-select lines inactive (HIGH): the display stays blank. -/
theorem drawAt_out_of_range_pos_blank (s : PinState) (pos : Int)
    (digit : Nat) (dot : Bool) (hpos : pos < 0 ∨ 3 < pos) (hd : digit ≤ 9) :
    selectLevels (Display.drawAt s pos digit dot) = [HIGH, HIGH, HIGH, HIGH] := by
  have h0 : ¬ pos = 0 := by rcases hpos with h | h <;> omega
  have h1 : ¬ pos = 1 := by rcases hpos with h | h <;> omega
  have h2 : ¬ pos = 2 := by rcases hpos with h | h <;> omega
  have h3 : ¬ pos = 3 := by rcases hpos with h | h <;> omega
  simp [selectLevels, Display.drawAt, Display.setPosition, Display.setDigit,
    Display.clean, digitalWrite, Display.m_pins, Display.Pins.idx,
    HIGH, LOW, h0, h1, h2, h3,
    DISPLAY_PIN_A, DISPLAY_PIN_B, DISPLAY_PIN_C, DISPLAY_PIN_D,
    DISPLAY_PIN_E, DISPLAY_PIN_F, DISPLAY_PIN_G, DISPLAY_PIN_DP,
    DISPLAY_PIN_D1, DISPLAY_PIN_D2, DISPLAY_PIN_D3, DISPLAY_PIN_D4,
    List.range_succ]

theorem drawAt_out_of_range_pos_blank_witness :
    ((5 : Int) < 0 ∨ (3 : Int) < 5) ∧
      selectLevels (Display.drawAt (fun _ => LOW) 5 0 false) =
        [HIGH, HIGH, HIGH, HIGH] :=
  ⟨Or.inr (by decide),
   drawAt_out_of_range_pos_blank (fun _ => LOW) 5 0 false (Or.inr (by decide))
     (by decide)⟩

/-- Claim C10: `setDigit` writes only the seven segment pins A..G and
leaves every other pin (the dot and the four digit selects included)
unchanged; the least significant bit of every encoding-table entry is 0. -/
theorem setDigit_frame (s : PinState) (digit : Nat) :
    (∀ p : Nat,
        p ∉ [DISPLAY_PIN_A, DISPLAY_PIN_B, DISPLAY_PIN_C, DISPLAY_PIN_D,
             DISPLAY_PIN_E, DISPLAY_PIN_F, DISPLAY_PIN_G] →
        Display.setDigit s digit p = s p) ∧
    (∀ d : Nat, d ≤ 9 → Display.m_digits d % 2 = 0) := by
  constructor
  · intro p hp
    simp [DISPLAY_PIN_A, DISPLAY_PIN_B, DISPLAY_PIN_C, DISPLAY_PIN_D,
      DISPLAY_PIN_E, DISPLAY_PIN_F, DISPLAY_PIN_G] at hp
    obtain ⟨n12, n8, n5, n3, n2, n11, n6⟩ := hp
    simp [Display.setDigit, digitalWrite, Display.m_pins, List.range_succ,
      DISPLAY_PIN_A, DISPLAY_PIN_B, DISPLAY_PIN_C, DISPLAY_PIN_D,
      DISPLAY_PIN_E, DISPLAY_PIN_F, DISPLAY_PIN_G,
      n12, n8, n5, n3, n2, n11, n6]
  · intro d hd
    interval_cases d <;> decide

theorem setDigit_frame_witness :
    ((4 : Nat) ∉ [DISPLAY_PIN_A, DISPLAY_PIN_B, DISPLAY_PIN_C, DISPLAY_PIN_D,
        DISPLAY_PIN_E, DISPLAY_PIN_F, DISPLAY_PIN_G]) ∧
      Display.setDigit (fun _ => HIGH) 5 4 = (fun _ => HIGH : PinState) 4 ∧
      (0 : Nat) ≤ 9 ∧ Display.m_digits 0 % 2 = 0 :=
  ⟨by decide,
   (setDigit_frame (fun _ => HIGH) 5).1 4 (by decide),
   by decide,
   (setDigit_frame (fun _ => HIGH) 5).2 0 (by decide)⟩

end RedClock
